import Mathlib

/-!
Shallow embedding of the ATtiny45 power-supply controller (`src/main.c`)
and proofs about its mode evaluator, mode actuator, voltage sampler and
PWM ramp generator.

Modelling conventions:
* Machine integers are `Nat` with explicit reduction where wrap-around is
  possible: `unsigned char` arithmetic is taken modulo 256; on the AVR
  target (avr-gcc) `unsigned int` and `unsigned short` are 16 bits wide,
  so the running sample sum is taken modulo 65536.  The signed
  `char indexDirPWM` is modelled as an `Int` that is reduced modulo 256
  at the `indexPWM += indexDirPWM` update, exactly mirroring the 8-bit
  two's-complement addition.
* Of each I/O register, the bits the program actually reads or writes are
  modelled as named boolean fields.
* The three `PINB` input bits are an environment `PinEnv`.  Electrically,
  reading the OUT_ENA bit returns the driven level (`PORTB` bit 1) while
  its `DDRB` bit is set, and returns the external, settled line level
  `outEnaPin` while the pin is released; `_delay_us(5)` (the settle wait)
  has no modelled state effect.
* Division: the C expression `1126400 / adcVal` is unsigned (long)
  division, modelled by `Nat` division.  `adcVal = 0` would be undefined
  behaviour in C; theorems about the sampler therefore assume positive
  raw codes.
-/

namespace PowerSupply

/-- `const unsigned char START_ADC_1S_WATCHDOG = 4` (main.c line 25). -/
def START_ADC_1S_WATCHDOG : Nat := 4

/-- `const unsigned char START_ADC_0_5S_WATCHDOG = 8` (main.c line 26). -/
def START_ADC_0_5S_WATCHDOG : Nat := 8

/-- `const unsigned char PWM_RAMP_SPEED = 3` (main.c line 34). -/
def PWM_RAMP_SPEED : Nat := 3

/-- `const unsigned char PWM_MAX = 253` (main.c line 35). -/
def PWM_MAX : Nat := 253

/-- `const unsigned char PWM_MIN = 0` (main.c line 36). -/
def PWM_MIN : Nat := 0

/-- `const unsigned short BATTERY_GOOD = 3419` (main.c line 42). -/
def BATTERY_GOOD : Nat := 3419

/-- `const unsigned short BATTERY_LOW = 3304` (main.c line 43). -/
def BATTERY_LOW : Nat := 3304

/-- `const unsigned short BATTERY_CRITICAL = 3209` (main.c line 44). -/
def BATTERY_CRITICAL : Nat := 3209

/-- The three PORTB/DDRB bits the program drives: bit 0 = red LED,
bit 1 = OUT_ENA (3.3 V output enable), bit 2 = green LED. -/
structure PortBits where
  red : Bool
  outEna : Bool
  grn : Bool
deriving DecidableEq

/-- The hardware registers (and register bits) touched by the program.
`wdp0`/`wdp1` are the watchdog period bits WDTCR.WDP0/WDP1 (the constant
WDP2 bit set once in `setup` is omitted, it is never changed). -/
structure Regs where
  portb : PortBits
  ddrb : PortBits
  sm1 : Bool
  ocie0a : Bool
  toie0 : Bool
  cs01 : Bool
  wdp0 : Bool
  wdp1 : Bool
  aden : Bool
  adsc : Bool
  ocr0a : Nat
deriving DecidableEq

/-- The external digital inputs as sampled via PINB.  `outEnaPin` is the
level the OUT_ENA line would show when the pin is released (input mode)
and has settled; `usb` is PINB bit 4 (high = USB connected); `chr` is
PINB bit 3 (low = the Li-Ion charger is charging). -/
structure PinEnv where
  outEnaPin : Bool
  usb : Bool
  chr : Bool
deriving DecidableEq

/-- The complete mutable program state: every file-scope C variable of
`main.c` together with the modelled registers. -/
structure Sys where
  watchdogCount : Nat
  adcVal : Nat
  sumVolt : Nat
  voltage : Nat
  numSamples : Nat
  countPWM : Nat
  indexDirPWM : Int
  indexPWM : Nat
  mStatus : Nat
  pStatus : Nat
  grn_glw : Bool
  red_glw : Bool
  requestStatus : Bool
  regs : Regs
deriving DecidableEq

/-- All modelled PORTB/DDRB bits cleared (AVR reset value). -/
def portOff : PortBits := { red := false, outEna := false, grn := false }

/-- Register state right after `setup()`: every modelled bit is at its
reset value except MCUCR.SM1, which `setup` sets (power-down selected). -/
def regsInit : Regs :=
  { portb := portOff, ddrb := portOff, sm1 := true, ocie0a := false,
    toie0 := false, cs01 := false, wdp0 := false, wdp1 := false,
    aden := false, adsc := false, ocr0a := 0 }

/-- Program state at the top of the main loop after `setup()`: the C
initializers of main.c lines 25-49 (uninitialized globals are zero). -/
def sysInit : Sys :=
  { watchdogCount := 0, adcVal := 0, sumVolt := 0, voltage := 4000,
    numSamples := 0, countPWM := 0, indexDirPWM := 1, indexPWM := 70,
    mStatus := 0, pStatus := 0, grn_glw := false, red_glw := false,
    requestStatus := true, regs := regsInit }

/-- The guard at the top of `getStatus` (main.c lines 137-140): when the
previous status was 7 the OUT_ENA drive is released (DDRB bit cleared)
and the pin allowed to settle before it is read. -/
def ddrbAfterSettle (s : Sys) : Sys :=
  if s.mStatus = 7 then { s with regs.ddrb.outEna := false } else s

/-- Reading `PINB & (1 << OUT_ENA)`: while the pin is driven (DDRB bit
set) the read returns the driven level (PORTB bit); while released it
returns the external line `outEnaPin`. -/
def readOutEna (env : PinEnv) (s : Sys) : Bool :=
  if s.regs.ddrb.outEna then s.regs.portb.outEna else env.outEnaPin

/-- `getStatus` (main.c lines 135-212): returns the mode 1-9 and the
updated state (watchdog cadence counter, ADC start, red-LED toggle,
OUT_ENA drive). -/
def getStatus (env : PinEnv) (s0 : Sys) : Nat × Sys :=
  let s := ddrbAfterSettle s0
  if readOutEna env s = false then
    if env.usb = false then (1, s)
    else if env.chr = false then (2, s)
    else (3, s)
  else if env.usb = false then
    if BATTERY_GOOD < s.voltage then
      let s :=
        if s.watchdogCount % START_ADC_1S_WATCHDOG = 0 then
          { s with watchdogCount := 0, regs.sm1 := false,
                   regs.aden := true, regs.adsc := true }
        else s
      (4, { s with watchdogCount := (s.watchdogCount + 1) % 256 })
    else if BATTERY_LOW < s.voltage then
      let s := { s with regs.portb.red := !s.regs.portb.red }
      let s := { s with watchdogCount := (s.watchdogCount + 1) % 256 }
      let s :=
        if s.watchdogCount % START_ADC_1S_WATCHDOG = 0 then
          { s with watchdogCount := 0, regs.sm1 := false,
                   regs.aden := true, regs.adsc := true }
        else s
      (5, s)
    else if BATTERY_CRITICAL < s.voltage then
      let s := { s with regs.portb.red := !s.regs.portb.red }
      let s := { s with watchdogCount := (s.watchdogCount + 1) % 256 }
      let s :=
        if s.watchdogCount % START_ADC_0_5S_WATCHDOG = 0 then
          { s with watchdogCount := 0, regs.sm1 := false,
                   regs.aden := true, regs.adsc := true }
        else s
      (6, s)
    else
      let s := { s with watchdogCount := (s.watchdogCount + 1) % 256 }
      let s :=
        if s.watchdogCount % START_ADC_1S_WATCHDOG = 0 then
          { s with watchdogCount := 0, regs.sm1 := false,
                   regs.aden := true, regs.adsc := true }
        else s
      (7, { s with regs.ddrb.outEna := true })
  else if env.chr = false then (8, s)
  else (9, s)

/-- The pure classification implemented by `getStatus`: the returned mode
as a function of the observed OUT_ENA level, the two USB/charger input
bits and the latest voltage only. -/
def classify (outOn usb chr : Bool) (v : Nat) : Nat :=
  if outOn = false then
    if usb = false then 1 else if chr = false then 2 else 3
  else if usb = false then
    if BATTERY_GOOD < v then 4
    else if BATTERY_LOW < v then 5
    else if BATTERY_CRITICAL < v then 6
    else 7
  else if chr = false then 8 else 9

/-- `setMode` (main.c lines 219-398): the per-mode actuation table,
dispatching on `mStatus`; mode 1 is also the `default` branch. -/
def setMode (s : Sys) : Sys :=
  match s.mStatus with
  | 2 =>
    { s with red_glw := true, grn_glw := false,
             regs.ddrb.red := true, regs.ddrb.grn := false,
             regs.ddrb.outEna := false,
             regs.portb.grn := false, regs.portb.red := true,
             regs.sm1 := false, regs.ocie0a := true, regs.toie0 := true,
             regs.cs01 := true, regs.wdp1 := true, regs.wdp0 := false,
             regs.aden := false }
  | 3 =>
    { s with regs.ddrb.red := true, regs.ddrb.grn := false,
             regs.ddrb.outEna := false,
             regs.portb.grn := false, regs.portb.red := false,
             regs.sm1 := true, regs.ocie0a := false, regs.toie0 := false,
             regs.cs01 := false, regs.wdp1 := true, regs.wdp0 := false,
             regs.aden := false }
  | 4 =>
    { s with regs.ddrb.grn := true, regs.ddrb.red := false,
             regs.ddrb.outEna := false,
             regs.portb.grn := false, regs.portb.red := false,
             regs.sm1 := true, regs.ocie0a := false, regs.toie0 := false,
             regs.cs01 := false, regs.wdp1 := true, regs.wdp0 := false }
  | 5 =>
    { s with regs.ddrb.grn := true, regs.ddrb.red := true,
             regs.ddrb.outEna := false,
             regs.portb.grn := false, regs.portb.red := false,
             regs.sm1 := true, regs.ocie0a := false, regs.toie0 := false,
             regs.cs01 := false, regs.wdp1 := true, regs.wdp0 := false }
  | 6 =>
    { s with regs.ddrb.grn := true, regs.ddrb.red := true,
             regs.ddrb.outEna := false,
             regs.portb.grn := false, regs.portb.red := false,
             regs.sm1 := true, regs.ocie0a := false, regs.toie0 := false,
             regs.cs01 := false, regs.wdp0 := true, regs.wdp1 := false }
  | 7 =>
    { s with regs.ddrb.grn := false, regs.ddrb.red := false,
             regs.ddrb.outEna := true,
             regs.portb.grn := false, regs.portb.red := false,
             regs.sm1 := true, regs.ocie0a := false, regs.toie0 := false,
             regs.cs01 := false, regs.wdp1 := true, regs.wdp0 := false }
  | 8 =>
    { s with red_glw := false, grn_glw := true,
             regs.ddrb.grn := true, regs.ddrb.red := false,
             regs.ddrb.outEna := false,
             regs.portb.grn := false, regs.portb.red := false,
             regs.sm1 := false, regs.ocie0a := true, regs.toie0 := true,
             regs.cs01 := true, regs.wdp1 := true, regs.wdp0 := false,
             regs.aden := false }
  | 9 =>
    { s with regs.ddrb.grn := true, regs.ddrb.red := false,
             regs.ddrb.outEna := false,
             regs.portb.grn := false, regs.portb.red := false,
             regs.sm1 := true, regs.ocie0a := false, regs.toie0 := false,
             regs.cs01 := false, regs.wdp1 := true, regs.wdp0 := false,
             regs.aden := false }
  | _ =>
    { s with regs.ddrb.grn := false, regs.ddrb.red := false,
             regs.ddrb.outEna := false,
             regs.portb.grn := false, regs.portb.red := false,
             regs.portb.outEna := false,
             regs.sm1 := true, regs.ocie0a := false, regs.toie0 := false,
             regs.cs01 := false, regs.wdp1 := true, regs.wdp0 := false,
             regs.aden := false }

/-- One watchdog-triggered evaluation cycle: the WDT interrupt sets
`requestStatus`, after which the main loop body (main.c lines 438-446)
runs `getStatus`, applies `setMode` only on a mode change, records the
previous status and clears the request. -/
def wakeStep (env : PinEnv) (s0 : Sys) : Sys :=
  let r := getStatus env s0
  let s : Sys := { r.2 with mStatus := r.1 }
  let s : Sys := if s.mStatus = s.pStatus then s else setMode s
  { s with pStatus := s.mStatus, requestStatus := false }

/-- Modelled from the spec (§4.3, §8 idempotence): the same evaluation
cycle but with the Mode Actuator never invoked; used to state that a
cycle whose mode is unchanged has no actuation effect. -/
def evalCycleNoActuation (env : PinEnv) (s0 : Sys) : Sys :=
  let r := getStatus env s0
  { r.2 with mStatus := r.1, pStatus := r.1, requestStatus := false }

/-- `ISR(ADC_vect)` (main.c lines 73-90): one completed conversion with
raw code `raw`.  The hardware has cleared ADSC at completion; the first
ten completions accumulate `1126400 / adcVal` into the 16-bit `sumVolt`
and re-arm ADSC, the next completion publishes `sumVolt / 10` and shuts
the ADC down. -/
def adcStep (raw : Nat) (s0 : Sys) : Sys :=
  let s := { s0 with adcVal := raw % 65536, regs.adsc := false }
  if s.numSamples < 10 then
    { s with numSamples := s.numSamples + 1,
             sumVolt := (s.sumVolt + 1126400 / s.adcVal) % 65536,
             regs.adsc := true }
  else
    { s with voltage := s.sumVolt / 10, numSamples := 0, sumVolt := 0,
             regs.sm1 := true, regs.aden := false }

/-- The state after `n` completed conversions whose raw codes are
`f 0, f 1, ...`, starting from `s`. -/
def acqRun (f : Nat → Nat) (s : Sys) : Nat → Sys
  | 0 => s
  | n + 1 => adcStep (f n) (acqRun f s n)

/-- `ISR(TIM0_COMPA_vect)` (main.c lines 110-127): every
`PWM_RAMP_SPEED`-th tick the duty-cycle index advances by the current
direction (8-bit wrap-around addition), the direction flips at the
bounds, OCR0A is loaded and the glowing LED is switched on (active low). -/
def pwmCompaStep (s : Sys) : Sys :=
  let cnt := (s.countPWM + 1) % 256
  if PWM_RAMP_SPEED ≤ cnt then
    let idx := (((s.indexPWM : Int) + s.indexDirPWM) % 256).toNat
    let dir :=
      if PWM_MAX ≤ idx then (-1 : Int)
      else if idx ≤ PWM_MIN then (1 : Int)
      else s.indexDirPWM
    { s with countPWM := 0, indexPWM := idx, indexDirPWM := dir,
             regs.ocr0a := idx,
             regs.portb.grn := s.regs.portb.grn && !s.grn_glw,
             regs.portb.red := s.regs.portb.red && !s.red_glw }
  else
    { s with countPWM := cnt }

/-- `ISR(TIM0_OVF_vect)` (main.c lines 98-102): switches the glowing
LED off again (active low: PORTB bit set). -/
def pwmOvfStep (s : Sys) : Sys :=
  { s with regs.portb.grn := s.regs.portb.grn || s.grn_glw,
           regs.portb.red := s.regs.portb.red || s.red_glw }

/-- The PWM ramp invariant: the duty-cycle index stays within
[PWM_MIN, PWM_MAX], the direction is either +1 or -1, and at either
bound the direction points back inward. -/
def pwmInv (s : Sys) : Prop :=
  s.indexPWM ≤ PWM_MAX ∧
  (s.indexDirPWM = 1 ∨ s.indexDirPWM = -1) ∧
  (s.indexPWM = PWM_MAX → s.indexDirPWM = -1) ∧
  (s.indexPWM = PWM_MIN → s.indexDirPWM = 1)

/-- The asynchronous wake sources of the device. -/
inductive Event where
  | wake : PinEnv → Event
  | adcSample : Nat → Event
  | pwmTick : Event
  | pwmOvf : Event
deriving DecidableEq

/-- Dispatch of one wake event. -/
def sysStep (s : Sys) (e : Event) : Sys :=
  match e with
  | .wake env => wakeStep env s
  | .adcSample r => adcStep r s
  | .pwmTick => pwmCompaStep s
  | .pwmOvf => pwmOvfStep s

/-- Run a whole event trace. -/
def runTrace (tr : List Event) (s : Sys) : Sys :=
  tr.foldl sysStep s

/-- Does this event complete an acquisition cycle (the conversion whose
ISR run publishes the average, i.e. arrives with `numSamples` at 10)? -/
def completesAcq (s : Sys) (e : Event) : Bool :=
  match e with
  | .adcSample _ => decide (10 ≤ s.numSamples)
  | _ => false

/-- `noCompletionB s tr = true` iff no event of `tr`, run from `s`,
completes an acquisition cycle. -/
def noCompletionB : Sys → List Event → Bool
  | _, [] => true
  | s, e :: tr => !completesAcq s e && noCompletionB (sysStep s e) tr

/-- One evaluation cycle of a sampling-cadence run: by the next watchdog
wake (~1 s later) any conversion started in the previous cycle has long
finished, so the hardware ADSC bit reads 0 again when the cycle starts;
the cycle then proceeds exactly as `wakeStep`. -/
def wakeIter (env : PinEnv) (s : Sys) : Sys :=
  wakeStep env { s with regs.adsc := false }

/-- The state after `n` evaluation cycles with fixed pin inputs. -/
def runState (env : PinEnv) (s : Sys) : Nat → Sys
  | 0 => s
  | n + 1 => wakeIter env (runState env s n)

/-- Whether evaluation cycle `n` (0-indexed) of a run requests a new
acquisition, observable as ADSC being set at the end of that cycle. -/
def requestedAt (env : PinEnv) (s : Sys) (n : Nat) : Bool :=
  (runState env s (n + 1)).regs.adsc

/-- Pin environment: output observed enabled, no USB. -/
def envOn : PinEnv := { outEnaPin := true, usb := false, chr := true }

/-- Pin environment: output observed disabled, no USB. -/
def envOff : PinEnv := { outEnaPin := false, usb := false, chr := true }

/-- The state reached from reset by the first watchdog evaluation with
the output observed on and no USB: `getStatus` requests an acquisition
(watchdog counter at 0), so the ADC is armed with `numSamples = 0`. -/
def armedSys : Sys := wakeIter envOn sysInit

/-- A state that differs from `sysInit` in the cadence counter and the
previously evaluated/applied mode but agrees on the classification
inputs. -/
def sysAlt : Sys := { sysInit with watchdogCount := 3, mStatus := 4, pStatus := 9 }

/-- A concrete short event trace that completes no acquisition cycle. -/
def traceW : List Event := [Event.adcSample 344, Event.pwmTick, Event.wake envOff]

/-- Initial state with a critically low published voltage. -/
def sysLow : Sys := { sysInit with voltage := 3000 }

/-- Initial state whose previous evaluation returned mode 7. -/
def sysM7 : Sys := { sysInit with mStatus := 7 }

lemma getStatus_fst (env : PinEnv) (s : Sys) :
    (getStatus env s).1 =
      classify (readOutEna env (ddrbAfterSettle s)) env.usb env.chr s.voltage := by
  have hv : (ddrbAfterSettle s).voltage = s.voltage := by
    unfold ddrbAfterSettle; split <;> rfl
  simp only [getStatus, classify, ← hv]
  split_ifs <;> rfl

lemma getStatus_frame (env : PinEnv) (s : Sys) :
    (getStatus env s).2.voltage = s.voltage ∧
    (getStatus env s).2.pStatus = s.pStatus ∧
    (getStatus env s).2.mStatus = s.mStatus ∧
    (getStatus env s).2.indexPWM = s.indexPWM ∧
    (getStatus env s).2.indexDirPWM = s.indexDirPWM ∧
    (getStatus env s).2.countPWM = s.countPWM ∧
    (getStatus env s).2.numSamples = s.numSamples ∧
    (getStatus env s).2.sumVolt = s.sumVolt ∧
    (getStatus env s).2.grn_glw = s.grn_glw ∧
    (getStatus env s).2.red_glw = s.red_glw ∧
    (getStatus env s).2.requestStatus = s.requestStatus ∧
    (getStatus env s).2.regs.portb.outEna = s.regs.portb.outEna := by
  simp only [getStatus, ddrbAfterSettle]
  split_ifs <;> simp

lemma setMode_frame (s : Sys) :
    (setMode s).voltage = s.voltage ∧
    (setMode s).watchdogCount = s.watchdogCount ∧
    (setMode s).mStatus = s.mStatus ∧
    (setMode s).pStatus = s.pStatus ∧
    (setMode s).indexPWM = s.indexPWM ∧
    (setMode s).indexDirPWM = s.indexDirPWM ∧
    (setMode s).countPWM = s.countPWM ∧
    (setMode s).numSamples = s.numSamples ∧
    (setMode s).sumVolt = s.sumVolt ∧
    (setMode s).requestStatus = s.requestStatus ∧
    (setMode s).regs.adsc = s.regs.adsc := by
  unfold setMode; split <;> simp

lemma wakeStep_frame (env : PinEnv) (s : Sys) :
    (wakeStep env s).voltage = s.voltage ∧
    (wakeStep env s).indexPWM = s.indexPWM ∧
    (wakeStep env s).indexDirPWM = s.indexDirPWM ∧
    (wakeStep env s).countPWM = s.countPWM ∧
    (wakeStep env s).numSamples = s.numSamples ∧
    (wakeStep env s).sumVolt = s.sumVolt := by
  have hg := getStatus_frame env s
  simp only [wakeStep]
  split <;>
    simp [setMode_frame, hg.1, hg.2.2.2.1, hg.2.2.2.2.1, hg.2.2.2.2.2.1,
      hg.2.2.2.2.2.2.1, hg.2.2.2.2.2.2.2.1]

lemma wakeStep_pStatus_eq_mStatus (env : PinEnv) (s : Sys) :
    (wakeStep env s).pStatus = (wakeStep env s).mStatus := rfl

/-- C1: with the output-enable pin observed high and the USB pin low,
the returned mode is determined by the latest voltage reading alone via
strict comparisons: voltage above 3419 gives mode 4, (3304, 3419] gives
mode 5, (3209, 3304] gives mode 6, at or below 3209 gives mode 7; in
particular a reading exactly at a threshold falls to the lower mode. -/
theorem voltage_threshold_modes (env : PinEnv) (s : Sys)
    (ho : readOutEna env (ddrbAfterSettle s) = true)
    (hu : env.usb = false) :
    (BATTERY_GOOD < s.voltage → (getStatus env s).1 = 4) ∧
    (BATTERY_LOW < s.voltage ∧ s.voltage ≤ BATTERY_GOOD → (getStatus env s).1 = 5) ∧
    (BATTERY_CRITICAL < s.voltage ∧ s.voltage ≤ BATTERY_LOW → (getStatus env s).1 = 6) ∧
    (s.voltage ≤ BATTERY_CRITICAL → (getStatus env s).1 = 7) ∧
    (s.voltage = BATTERY_GOOD → (getStatus env s).1 = 5) ∧
    (s.voltage = BATTERY_LOW → (getStatus env s).1 = 6) ∧
    (s.voltage = BATTERY_CRITICAL → (getStatus env s).1 = 7) := by
  simp only [getStatus_fst, ho, hu, classify, BATTERY_GOOD, BATTERY_LOW,
    BATTERY_CRITICAL]
  norm_num
  refine ⟨?_, ?_, ?_, ?_, ?_, ?_, ?_⟩ <;> intro h <;> split_ifs <;> omega

/-- C1 witness: at the initial state (voltage 4000) with the output
observed on and USB absent. -/
theorem voltage_threshold_modes_witness :
    (BATTERY_GOOD < sysInit.voltage → (getStatus envOn sysInit).1 = 4) ∧
    (BATTERY_LOW < sysInit.voltage ∧ sysInit.voltage ≤ BATTERY_GOOD →
      (getStatus envOn sysInit).1 = 5) ∧
    (BATTERY_CRITICAL < sysInit.voltage ∧ sysInit.voltage ≤ BATTERY_LOW →
      (getStatus envOn sysInit).1 = 6) ∧
    (sysInit.voltage ≤ BATTERY_CRITICAL → (getStatus envOn sysInit).1 = 7) ∧
    (sysInit.voltage = BATTERY_GOOD → (getStatus envOn sysInit).1 = 5) ∧
    (sysInit.voltage = BATTERY_LOW → (getStatus envOn sysInit).1 = 6) ∧
    (sysInit.voltage = BATTERY_CRITICAL → (getStatus envOn sysInit).1 = 7) :=
  voltage_threshold_modes envOn sysInit (by decide) rfl

/-- C2: the branch structure over the three boolean inputs: output
observed low and USB absent gives mode 1; output low, USB present,
charging active (charger pin low) gives mode 2; output low, USB present,
charging inactive gives mode 3; output high with USB present gives mode
8 when charging and mode 9 when not; together with the voltage-dependent
branch (output high, USB absent) these six branch conditions are
exhaustive and pairwise non-overlapping over the boolean inputs. -/
theorem boolean_branch_structure (env : PinEnv) (s : Sys) :
    (readOutEna env (ddrbAfterSettle s) = false → env.usb = false →
      (getStatus env s).1 = 1) ∧
    (readOutEna env (ddrbAfterSettle s) = false → env.usb = true →
      env.chr = false → (getStatus env s).1 = 2) ∧
    (readOutEna env (ddrbAfterSettle s) = false → env.usb = true →
      env.chr = true → (getStatus env s).1 = 3) ∧
    (readOutEna env (ddrbAfterSettle s) = true → env.usb = true →
      env.chr = false → (getStatus env s).1 = 8) ∧
    (readOutEna env (ddrbAfterSettle s) = true → env.usb = true →
      env.chr = true → (getStatus env s).1 = 9) ∧
    (∀ o u c : Bool,
      List.count true
        [!o && !u, !o && u && !c, !o && u && c,
         o && !u, o && u && !c, o && u && c] = 1) := by
  refine ⟨?_, ?_, ?_, ?_, ?_, by decide⟩ <;>
    intro ho hu <;>
    first
      | (intro hc; simp [getStatus_fst, classify, ho, hu, hc])
      | simp [getStatus_fst, classify, ho, hu]

/-- C2 witness: output observed off, no USB, at the initial state. -/
theorem boolean_branch_structure_witness :
    (readOutEna envOff (ddrbAfterSettle sysInit) = false →
      envOff.usb = false → (getStatus envOff sysInit).1 = 1) ∧
    (readOutEna envOff (ddrbAfterSettle sysInit) = false →
      envOff.usb = true → envOff.chr = false → (getStatus envOff sysInit).1 = 2) ∧
    (readOutEna envOff (ddrbAfterSettle sysInit) = false →
      envOff.usb = true → envOff.chr = true → (getStatus envOff sysInit).1 = 3) ∧
    (readOutEna envOff (ddrbAfterSettle sysInit) = true →
      envOff.usb = true → envOff.chr = false → (getStatus envOff sysInit).1 = 8) ∧
    (readOutEna envOff (ddrbAfterSettle sysInit) = true →
      envOff.usb = true → envOff.chr = true → (getStatus envOff sysInit).1 = 9) ∧
    (∀ o u c : Bool,
      List.count true
        [!o && !u, !o && u && !c, !o && u && c,
         o && !u, o && u && !c, o && u && c] = 1) :=
  boolean_branch_structure envOff sysInit

/-- C9: the classification is deterministic and memoryless: two
evaluations that observe the same output-enable level and read the same
USB, charger and voltage values return the same mode, whatever the rest
of the stored state (in particular the cadence counter and previous
mode) holds. -/
theorem mode_memoryless (env1 env2 : PinEnv) (s1 s2 : Sys)
    (ho : readOutEna env1 (ddrbAfterSettle s1) = readOutEna env2 (ddrbAfterSettle s2))
    (hu : env1.usb = env2.usb) (hc : env1.chr = env2.chr)
    (hv : s1.voltage = s2.voltage) :
    (getStatus env1 s1).1 = (getStatus env2 s2).1 := by
  rw [getStatus_fst, getStatus_fst, ho, hu, hc, hv]

/-- C9 witness: `sysAlt` differs from `sysInit` in the cadence counter
and in the previously evaluated/applied modes, yet the mode returned is
the same. -/
theorem mode_memoryless_witness :
    (getStatus envOn sysInit).1 = (getStatus envOn sysAlt).1 :=
  mode_memoryless envOn envOn sysInit sysAlt (by decide) rfl rfl rfl

/-- C7: actuation is edge-triggered and idempotent: when a second
evaluation cycle returns the same mode the previous cycle applied, the
cycle coincides with one in which the Mode Actuator is never invoked, so
it produces no observable pin or register change from actuation. -/
theorem actuation_edge_triggered (env1 env2 : PinEnv) (s : Sys)
    (h : (getStatus env2 (wakeStep env1 s)).1 = (wakeStep env1 s).mStatus) :
    wakeStep env2 (wakeStep env1 s) = evalCycleNoActuation env2 (wakeStep env1 s) := by
  have hpm := wakeStep_pStatus_eq_mStatus env1 s
  generalize ht : wakeStep env1 s = t at h hpm ⊢
  have hp : (getStatus env2 t).2.pStatus = t.pStatus := (getStatus_frame env2 t).2.1
  simp only [wakeStep, evalCycleNoActuation]
  split
  · rfl
  · rename_i hc
    exact absurd (by rw [hp, hpm]; exact h) hc

/-- C7 witness: two cycles with the output observed off and no USB both
give mode 1; the second cycle equals the actuation-free cycle. -/
theorem actuation_edge_triggered_witness :
    wakeStep envOff (wakeStep envOff sysInit) =
      evalCycleNoActuation envOff (wakeStep envOff sysInit) :=
  actuation_edge_triggered envOff envOff sysInit (by decide)

lemma sysStep_voltage (s : Sys) (e : Event) (h : completesAcq s e = false) :
    (sysStep s e).voltage = s.voltage := by
  cases e with
  | wake env => exact (wakeStep_frame env s).1
  | adcSample r =>
    simp only [completesAcq, decide_eq_false_iff_not, not_le] at h
    simp only [sysStep, adcStep]
    rw [if_pos (show _ < 10 by simpa using h)]
  | pwmTick =>
    simp only [sysStep, pwmCompaStep]
    split <;> rfl
  | pwmOvf => rfl

lemma runTrace_voltage :
    ∀ (tr : List Event) (s : Sys), noCompletionB s tr = true →
      (runTrace tr s).voltage = s.voltage := by
  intro tr
  induction tr with
  | nil => intro s _; rfl
  | cons e tr ih =>
    intro s h
    simp only [noCompletionB, Bool.and_eq_true, Bool.not_eq_true'] at h
    have hc : runTrace (e :: tr) s = runTrace tr (sysStep s e) := rfl
    rw [hc, ih _ h.2, sysStep_voltage s e h.1]

/-- C10: along any event trace from power-up in which no acquisition
cycle has yet completed, the published voltage stays at its initial
value 4000 mV, so every evaluation that observes the output enabled with
USB absent classifies as mode 4, whatever the real battery voltage. -/
theorem startup_window_mode4 (tr : List Event)
    (h : noCompletionB sysInit tr = true) :
    (runTrace tr sysInit).voltage = 4000 ∧
    ∀ env, readOutEna env (ddrbAfterSettle (runTrace tr sysInit)) = true →
      env.usb = false → (getStatus env (runTrace tr sysInit)).1 = 4 := by
  have hv : (runTrace tr sysInit).voltage = 4000 := runTrace_voltage tr sysInit h
  refine ⟨hv, fun env ho hu => ?_⟩
  rw [getStatus_fst, ho, hu, hv]
  simp [classify, BATTERY_GOOD]

/-- C10 witness: after a partial acquisition sample, a PWM tick and a
mode-1 wake, the voltage is still 4000 and an output-on, USB-absent
evaluation returns mode 4. -/
theorem startup_window_mode4_witness :
    (runTrace traceW sysInit).voltage = 4000 ∧
    (getStatus envOn (runTrace traceW sysInit)).1 = 4 :=
  ⟨(startup_window_mode4 traceW (by decide)).1,
   (startup_window_mode4 traceW (by decide)).2 envOn (by decide) rfl⟩

lemma getStatus_mode7_ddrb (env : PinEnv) (s : Sys)
    (ho : readOutEna env (ddrbAfterSettle s) = true) (hu : env.usb = false)
    (hv : s.voltage ≤ BATTERY_CRITICAL) :
    (getStatus env s).2.regs.ddrb.outEna = true := by
  have hvs : (ddrbAfterSettle s).voltage = s.voltage := by
    unfold ddrbAfterSettle; split <;> rfl
  simp only [getStatus]
  rw [if_neg (by simp [ho]), if_pos hu,
    if_neg (by rw [hvs]; simp only [BATTERY_GOOD, BATTERY_CRITICAL] at *; omega),
    if_neg (by rw [hvs]; simp only [BATTERY_LOW, BATTERY_CRITICAL] at *; omega),
    if_neg (by rw [hvs]; simp only [BATTERY_CRITICAL] at *; omega)]

lemma setMode_portb_outEna (s : Sys) :
    (setMode s).regs.portb.outEna = s.regs.portb.outEna ∨
      (setMode s).regs.portb.outEna = false := by
  unfold setMode; split <;> simp

lemma sysStep_portb_outEna (s : Sys) (e : Event)
    (h : s.regs.portb.outEna = false) :
    (sysStep s e).regs.portb.outEna = false := by
  cases e with
  | wake env =>
    show (wakeStep env s).regs.portb.outEna = false
    have hg := (getStatus_frame env s).2.2.2.2.2.2.2.2.2.2.2
    simp only [wakeStep]
    split
    · exact hg.trans h
    · rcases setMode_portb_outEna { (getStatus env s).2 with mStatus := (getStatus env s).1 } with hs | hs
      · rw [hs]; exact hg.trans h
      · exact hs
  | adcSample r =>
    show (adcStep r s).regs.portb.outEna = false
    simp only [adcStep]
    split <;> exact h
  | pwmTick =>
    show (pwmCompaStep s).regs.portb.outEna = false
    simp only [pwmCompaStep]
    split <;> exact h
  | pwmOvf => exact h

lemma runTrace_portb_outEna :
    ∀ (tr : List Event) (s : Sys), s.regs.portb.outEna = false →
      (runTrace tr s).regs.portb.outEna = false := by
  intro tr
  induction tr with
  | nil => intro s h; exact h
  | cons e tr ih =>
    intro s h
    have hc : runTrace (e :: tr) s = runTrace tr (sysStep s e) := rfl
    rw [hc]
    exact ih _ (sysStep_portb_outEna s e h)

/-- C8: (i) with the output observed on, USB absent and the voltage at
or below the critical threshold, the evaluation returns mode 7 and
forces the output-enable line off: the line is driven (DDRB bit set)
at the low PORTB level; the PORTB OUT_ENA level is in fact low in every
reachable state.  (ii) Every evaluation entered with previous mode 7
first releases the OUT_ENA drive and re-reads the line only after the
settle delay, so the value used is the external settled level, not the
previously driven one. -/
theorem mode7_output_forced_off :
    (∀ env s, readOutEna env (ddrbAfterSettle s) = true → env.usb = false →
      s.voltage ≤ BATTERY_CRITICAL → s.regs.portb.outEna = false →
      (getStatus env s).1 = 7 ∧
      (getStatus env s).2.regs.ddrb.outEna = true ∧
      (getStatus env s).2.regs.portb.outEna = false) ∧
    (∀ env s, s.mStatus = 7 →
      (ddrbAfterSettle s).regs.ddrb.outEna = false ∧
      readOutEna env (ddrbAfterSettle s) = env.outEnaPin) ∧
    (∀ tr, (runTrace tr sysInit).regs.portb.outEna = false) := by
  refine ⟨fun env s ho hu hv hp => ⟨?_, ?_, ?_⟩, fun env s h7 => ⟨?_, ?_⟩, fun tr => ?_⟩
  · rw [getStatus_fst, ho, hu]
    simp only [classify, BATTERY_GOOD, BATTERY_LOW, BATTERY_CRITICAL] at *
    norm_num
    split_ifs <;> omega
  · exact getStatus_mode7_ddrb env s ho hu hv
  · exact ((getStatus_frame env s).2.2.2.2.2.2.2.2.2.2.2).trans hp
  · simp [ddrbAfterSettle, h7]
  · simp [ddrbAfterSettle, readOutEna, h7]
  · exact runTrace_portb_outEna tr sysInit rfl

/-- C8 witness: parts instantiated at a critically-low-voltage state, at
a previous-mode-7 state and at a concrete trace. -/
theorem mode7_output_forced_off_witness :
    ((getStatus envOn sysLow).1 = 7 ∧
      (getStatus envOn sysLow).2.regs.ddrb.outEna = true ∧
      (getStatus envOn sysLow).2.regs.portb.outEna = false) ∧
    ((ddrbAfterSettle sysM7).regs.ddrb.outEna = false ∧
      readOutEna envOn (ddrbAfterSettle sysM7) = envOn.outEnaPin) ∧
    (runTrace traceW sysInit).regs.portb.outEna = false :=
  ⟨mode7_output_forced_off.1 envOn sysLow (by decide) rfl (by decide) rfl,
   mode7_output_forced_off.2.1 envOn sysM7 rfl,
   mode7_output_forced_off.2.2 traceW⟩

lemma adcStep_sample (r : Nat) (t : Sys) (h : t.numSamples < 10)
    (hr : r < 65536) :
    (adcStep r t).numSamples = t.numSamples + 1 ∧
    (adcStep r t).sumVolt = (t.sumVolt + 1126400 / r) % 65536 ∧
    (adcStep r t).voltage = t.voltage ∧
    (adcStep r t).regs.aden = t.regs.aden ∧
    (adcStep r t).regs.sm1 = t.regs.sm1 ∧
    (adcStep r t).regs.adsc = true := by
  simp only [adcStep]
  rw [if_pos (by simpa using h), Nat.mod_eq_of_lt hr]
  exact ⟨rfl, rfl, rfl, rfl, rfl, rfl⟩

lemma acqRun_progress (f : Nat → Nat) (s : Sys)
    (h0 : s.numSamples = 0) (h1 : s.sumVolt = 0) (hf : ∀ i, f i < 65536) :
    ∀ n, n ≤ 10 →
      (acqRun f s n).numSamples = n ∧
      (acqRun f s n).sumVolt = (∑ i in Finset.range n, 1126400 / f i) % 65536 ∧
      (acqRun f s n).voltage = s.voltage ∧
      (acqRun f s n).regs.aden = s.regs.aden ∧
      (acqRun f s n).regs.sm1 = s.regs.sm1 ∧
      (0 < n → (acqRun f s n).regs.adsc = true) := by
  intro n
  induction n with
  | zero => intro _; exact ⟨h0, by simp [h1, acqRun], rfl, rfl, rfl, by omega⟩
  | succ n ih =>
    intro hn
    obtain ⟨hns, hsum, hv, had, hsm, _⟩ := ih (by omega)
    have hst := adcStep_sample (f n) (acqRun f s n) (by omega) (hf n)
    refine ⟨hst.1.trans (by rw [hns]), ?_, hst.2.2.1.trans hv,
      hst.2.2.2.1.trans had, hst.2.2.2.2.1.trans hsm,
      fun _ => hst.2.2.2.2.2⟩
    show (adcStep (f n) (acqRun f s n)).sumVolt = _
    rw [hst.2.1, hsum, Nat.mod_add_mod, Finset.sum_range_succ]

lemma acqRun_succ (f : Nat → Nat) (s : Sys) (n : Nat) :
    acqRun f s (n + 1) = adcStep (f n) (acqRun f s n) := rfl

lemma adcStep_final (r : Nat) (t : Sys) (h : t.numSamples = 10) :
    (adcStep r t).regs.adsc = false ∧ (adcStep r t).regs.aden = false ∧
    (adcStep r t).regs.sm1 = true ∧ (adcStep r t).numSamples = 0 ∧
    (adcStep r t).sumVolt = 0 ∧ (adcStep r t).voltage = t.sumVolt / 10 := by
  simp only [adcStep]
  rw [if_neg (by simp [h])]
  exact ⟨rfl, rfl, rfl, rfl, rfl, rfl⟩

/-- C3 counterexample: an acquisition of ten identical raw codes 100
publishes 4710 mV, not the integer average 11264 mV of the ten
per-sample values — the 16-bit running sum overflows. -/
theorem voltage_averaging_cex :
    (acqRun (fun _ => 100) armedSys 11).voltage = 4710 ∧
    (∑ i in Finset.range 10, 1126400 / 100) / 10 = 11264 ∧
    ¬ (acqRun (fun _ => 100) armedSys 11).voltage =
        (∑ i in Finset.range 10, 1126400 / 100) / 10 := by
  refine ⟨by decide, ?_, ?_⟩ <;>
    simp [Finset.sum_const, Finset.card_range] <;> decide

/-- C3 amended: the published reading is the 16-bit-reduced sum of the
ten per-sample millivolt values divided by 10; whenever that sum fits in
16 bits this is exactly the integer average, and ten identical codes `r`
whose sample sum fits yield exactly `1126400 / r`, the single-sample
conversion. -/
theorem voltage_averaging_amended (f : Nat → Nat) (s : Sys)
    (h0 : s.numSamples = 0) (h1 : s.sumVolt = 0) (hf : ∀ i, f i < 65536) :
    (acqRun f s 11).voltage = ((∑ i in Finset.range 10, 1126400 / f i) % 65536) / 10 ∧
    ((∑ i in Finset.range 10, 1126400 / f i) < 65536 →
      (acqRun f s 11).voltage = (∑ i in Finset.range 10, 1126400 / f i) / 10) ∧
    (∀ r, (∀ i, f i = r) → 10 * (1126400 / r) < 65536 →
      (acqRun f s 11).voltage = 1126400 / r) := by
  obtain ⟨hns, hsum, hv, had, hsm, hads⟩ := acqRun_progress f s h0 h1 hf 10 le_rfl
  have heq : acqRun f s 11 = adcStep (f 10) (acqRun f s 10) := acqRun_succ f s 10
  have h11 : (acqRun f s 11).voltage = (acqRun f s 10).sumVolt / 10 := by
    rw [heq]; exact (adcStep_final (f 10) (acqRun f s 10) hns).2.2.2.2.2
  refine ⟨by rw [h11, hsum], fun hlt => ?_, fun r hr hlt => ?_⟩
  · rw [h11, hsum, Nat.mod_eq_of_lt hlt]
  · have hsumr : (∑ i in Finset.range 10, 1126400 / f i) = 10 * (1126400 / r) := by
      simp [hr, Finset.sum_const, Finset.card_range]
    rw [h11, hsum, hsumr, Nat.mod_eq_of_lt hlt,
      Nat.mul_div_cancel_left _ (by norm_num)]

/-- C3 amended witness: ten identical codes 344 (about 3.27 V) publish
exactly `1126400 / 344 = 3274` mV. -/
theorem voltage_averaging_amended_witness :
    (acqRun (fun _ => 344) armedSys 11).voltage = 1126400 / 344 :=
  (voltage_averaging_amended (fun _ => 344) armedSys (by decide) (by decide)
    (fun _ => by norm_num)).2.2 344 (fun _ => rfl) (by norm_num)

/-- C4 counterexample: from a freshly armed acquisition, after the 10th
completed conversion (10 samples collected) a further conversion is
started — ADSC is set again and the ADC is still enabled, contradicting
"after the 10th sample no further conversion is started". -/
theorem acquisition_count_cex :
    (acqRun (fun _ => 344) armedSys 10).numSamples = 10 ∧
    (acqRun (fun _ => 344) armedSys 10).regs.adsc = true ∧
    (acqRun (fun _ => 344) armedSys 10).regs.aden = true := by decide

/-- C4 amended: every started acquisition collects exactly 10 samples
but performs 11 conversions: each of the first 10 completions
accumulates a sample and re-arms the next conversion — including after
the 10th sample, when an 11th conversion is started whose result is
discarded; only on the 11th completion is the analog subsystem disabled
(ADEN cleared, no re-arm) and deepest sleep re-selected (SM1 set), with
the sample counters reset for the next cycle. -/
theorem acquisition_eleven_conversions (f : Nat → Nat) (s : Sys)
    (h0 : s.numSamples = 0) (h1 : s.sumVolt = 0) (hf : ∀ i, f i < 65536) :
    (∀ i, i < 10 → (acqRun f s (i + 1)).numSamples = i + 1 ∧
      (acqRun f s (i + 1)).regs.adsc = true) ∧
    (acqRun f s 11).regs.adsc = false ∧
    (acqRun f s 11).regs.aden = false ∧
    (acqRun f s 11).regs.sm1 = true ∧
    (acqRun f s 11).numSamples = 0 ∧
    (acqRun f s 11).sumVolt = 0 := by
  obtain ⟨hns, hsum, hv, had, hsm, hads⟩ := acqRun_progress f s h0 h1 hf 10 le_rfl
  have heq : acqRun f s 11 = adcStep (f 10) (acqRun f s 10) := acqRun_succ f s 10
  have hfin := adcStep_final (f 10) (acqRun f s 10) hns
  have e1 : (acqRun f s 11).regs.adsc = false := by rw [heq]; exact hfin.1
  have e2 : (acqRun f s 11).regs.aden = false := by rw [heq]; exact hfin.2.1
  have e3 : (acqRun f s 11).regs.sm1 = true := by rw [heq]; exact hfin.2.2.1
  have e4 : (acqRun f s 11).numSamples = 0 := by rw [heq]; exact hfin.2.2.2.1
  have e5 : (acqRun f s 11).sumVolt = 0 := by rw [heq]; exact hfin.2.2.2.2.1
  refine ⟨fun i hi => ?_, e1, e2, e3, e4, e5⟩
  obtain ⟨a, _, _, _, _, g⟩ := acqRun_progress f s h0 h1 hf (i + 1) (by omega)
  exact ⟨a, g (by omega)⟩

/-- C4 amended witness: the armed state with ten codes 344: after the
first completion a conversion is re-armed, and after the 11th the ADC is
off, power-down is selected and the counters are reset. -/
theorem acquisition_eleven_conversions_witness :
    ((acqRun (fun _ => 344) armedSys 1).numSamples = 1 ∧
      (acqRun (fun _ => 344) armedSys 1).regs.adsc = true) ∧
    (acqRun (fun _ => 344) armedSys 11).regs.adsc = false ∧
    (acqRun (fun _ => 344) armedSys 11).regs.aden = false ∧
    (acqRun (fun _ => 344) armedSys 11).regs.sm1 = true ∧
    (acqRun (fun _ => 344) armedSys 11).numSamples = 0 ∧
    (acqRun (fun _ => 344) armedSys 11).sumVolt = 0 :=
  have h := acquisition_eleven_conversions (fun _ => 344) armedSys (by decide)
    (by decide) (fun _ => by norm_num)
  ⟨h.1 0 (by norm_num), h.2.1, h.2.2.1, h.2.2.2.1, h.2.2.2.2.1, h.2.2.2.2.2⟩

lemma adcStep_pwm (r : Nat) (s : Sys) :
    (adcStep r s).indexPWM = s.indexPWM ∧
    (adcStep r s).indexDirPWM = s.indexDirPWM := by
  simp only [adcStep]
  split <;> exact ⟨rfl, rfl⟩

lemma pwmCompaStep_inv (s : Sys) (h : pwmInv s) : pwmInv (pwmCompaStep s) := by
  obtain ⟨hb, hd, hmax, hmin⟩ := h
  simp only [PWM_MAX, PWM_MIN] at hb hmax hmin
  simp only [pwmCompaStep, pwmInv, PWM_RAMP_SPEED, PWM_MAX, PWM_MIN]
  split
  · rcases hd with h1 | h1
    · have hle : s.indexPWM ≤ 252 := by
        rcases Nat.lt_or_ge s.indexPWM 253 with hlt | hge
        · omega
        · have h253 : s.indexPWM = 253 := by omega
          rw [hmax h253] at h1; omega
      have hidx : (((s.indexPWM : Int) + s.indexDirPWM) % 256).toNat =
          s.indexPWM + 1 := by rw [h1]; omega
      dsimp only
      rw [hidx]
      split_ifs <;> (try simp_all) <;> omega
    · have hge : 1 ≤ s.indexPWM := by
        rcases Nat.eq_zero_or_pos s.indexPWM with h0 | h0
        · rw [hmin h0] at h1; omega
        · omega
      have hidx : (((s.indexPWM : Int) + s.indexDirPWM) % 256).toNat =
          s.indexPWM - 1 := by rw [h1]; omega
      dsimp only
      rw [hidx]
      split_ifs <;> (try simp_all) <;> omega
  · exact ⟨hb, hd, hmax, hmin⟩

lemma pwm_flip_at_bounds (s : Sys) (h : pwmInv s)
    (hne : (pwmCompaStep s).indexDirPWM ≠ s.indexDirPWM) :
    (pwmCompaStep s).indexPWM = PWM_MAX ∨ (pwmCompaStep s).indexPWM = PWM_MIN := by
  obtain ⟨hb, hd, hmax, hmin⟩ := h
  simp only [PWM_MAX, PWM_MIN] at hb hmax hmin ⊢
  simp only [pwmCompaStep, PWM_RAMP_SPEED, PWM_MAX, PWM_MIN] at hne ⊢
  split at hne
  · rcases hd with h1 | h1
    · have hle : s.indexPWM ≤ 252 := by
        rcases Nat.lt_or_ge s.indexPWM 253 with hlt | hge
        · omega
        · have h253 : s.indexPWM = 253 := by omega
          rw [hmax h253] at h1; omega
      have hidx : (((s.indexPWM : Int) + s.indexDirPWM) % 256).toNat =
          s.indexPWM + 1 := by rw [h1]; omega
      dsimp only at hne ⊢
      rw [hidx] at hne ⊢
      split at hne <;> split_ifs at hne ⊢ <;> (try simp_all) <;> omega
    · have hge : 1 ≤ s.indexPWM := by
        rcases Nat.eq_zero_or_pos s.indexPWM with h0 | h0
        · rw [hmin h0] at h1; omega
        · omega
      have hidx : (((s.indexPWM : Int) + s.indexDirPWM) % 256).toNat =
          s.indexPWM - 1 := by rw [h1]; omega
      dsimp only at hne ⊢
      rw [hidx] at hne ⊢
      split at hne <;> split_ifs at hne ⊢ <;> (try simp_all) <;> omega
  · exact absurd rfl hne

lemma sysStep_pwmInv (s : Sys) (e : Event) (h : pwmInv s) :
    pwmInv (sysStep s e) := by
  cases e with
  | wake env =>
    have hf := wakeStep_frame env s
    show pwmInv (wakeStep env s)
    unfold pwmInv at h ⊢
    rw [hf.2.1, hf.2.2.1]
    exact h
  | adcSample r =>
    have hf := adcStep_pwm r s
    show pwmInv (adcStep r s)
    unfold pwmInv at h ⊢
    rw [hf.1, hf.2]
    exact h
  | pwmTick => exact pwmCompaStep_inv s h
  | pwmOvf => exact h

lemma runTrace_pwmInv :
    ∀ (tr : List Event) (s : Sys), pwmInv s → pwmInv (runTrace tr s) := by
  intro tr
  induction tr with
  | nil => intro s h; exact h
  | cons e tr ih =>
    intro s h
    have hc : runTrace (e :: tr) s = runTrace tr (sysStep s e) := rfl
    rw [hc]
    exact ih _ (sysStep_pwmInv s e h)

/-- C6: in every reachable state the PWM duty-cycle index satisfies
`PWM_MIN ≤ indexPWM ≤ PWM_MAX` (bounds [0, 253]), the direction is ±1,
and direction flips happen exactly at the bounds and nowhere else:
a tick can change the direction only by moving the index onto a bound,
and at the upper bound the direction is decreasing while at the lower
bound it is increasing. -/
theorem pwm_index_invariant (tr : List Event) :
    PWM_MIN ≤ (runTrace tr sysInit).indexPWM ∧
    (runTrace tr sysInit).indexPWM ≤ PWM_MAX ∧
    ((runTrace tr sysInit).indexDirPWM = 1 ∨
      (runTrace tr sysInit).indexDirPWM = -1) ∧
    ((runTrace tr sysInit).indexPWM = PWM_MAX →
      (runTrace tr sysInit).indexDirPWM = -1) ∧
    ((runTrace tr sysInit).indexPWM = PWM_MIN →
      (runTrace tr sysInit).indexDirPWM = 1) ∧
    ((pwmCompaStep (runTrace tr sysInit)).indexDirPWM ≠
        (runTrace tr sysInit).indexDirPWM →
      (pwmCompaStep (runTrace tr sysInit)).indexPWM = PWM_MAX ∨
      (pwmCompaStep (runTrace tr sysInit)).indexPWM = PWM_MIN) := by
  have h0 : pwmInv sysInit := by
    refine ⟨by norm_num [sysInit, PWM_MAX], Or.inl rfl, ?_, ?_⟩ <;>
      intro hx <;> simp [sysInit, PWM_MAX, PWM_MIN] at hx
  have h := runTrace_pwmInv tr sysInit h0
  exact ⟨Nat.zero_le _, h.1, h.2.1, h.2.2.1, h.2.2.2,
    fun hne => pwm_flip_at_bounds _ h hne⟩

/-- C6 witness: instantiated at the trace of three PWM ticks (one duty
advance from the initial index 70). -/
theorem pwm_index_invariant_witness :
    PWM_MIN ≤ (runTrace [Event.pwmTick, Event.pwmTick, Event.pwmTick] sysInit).indexPWM ∧
    (runTrace [Event.pwmTick, Event.pwmTick, Event.pwmTick] sysInit).indexPWM ≤ PWM_MAX ∧
    ((runTrace [Event.pwmTick, Event.pwmTick, Event.pwmTick] sysInit).indexDirPWM = 1 ∨
      (runTrace [Event.pwmTick, Event.pwmTick, Event.pwmTick] sysInit).indexDirPWM = -1) ∧
    ((runTrace [Event.pwmTick, Event.pwmTick, Event.pwmTick] sysInit).indexPWM = PWM_MAX →
      (runTrace [Event.pwmTick, Event.pwmTick, Event.pwmTick] sysInit).indexDirPWM = -1) ∧
    ((runTrace [Event.pwmTick, Event.pwmTick, Event.pwmTick] sysInit).indexPWM = PWM_MIN →
      (runTrace [Event.pwmTick, Event.pwmTick, Event.pwmTick] sysInit).indexDirPWM = 1) ∧
    ((pwmCompaStep (runTrace [Event.pwmTick, Event.pwmTick, Event.pwmTick] sysInit)).indexDirPWM ≠
        (runTrace [Event.pwmTick, Event.pwmTick, Event.pwmTick] sysInit).indexDirPWM →
      (pwmCompaStep (runTrace [Event.pwmTick, Event.pwmTick, Event.pwmTick] sysInit)).indexPWM = PWM_MAX ∨
      (pwmCompaStep (runTrace [Event.pwmTick, Event.pwmTick, Event.pwmTick] sysInit)).indexPWM = PWM_MIN) :=
  pwm_index_invariant [Event.pwmTick, Event.pwmTick, Event.pwmTick]

lemma ddrbAfterSettle_frame (s : Sys) :
    (ddrbAfterSettle s).watchdogCount = s.watchdogCount ∧
    (ddrbAfterSettle s).voltage = s.voltage ∧
    (ddrbAfterSettle s).regs.adsc = s.regs.adsc ∧
    (ddrbAfterSettle s).mStatus = s.mStatus ∧
    (ddrbAfterSettle s).pStatus = s.pStatus := by
  unfold ddrbAfterSettle
  split <;> simp

lemma settled_ddrb_false (s : Sys)
    (hd : s.regs.ddrb.outEna = false ∨ s.mStatus = 7) :
    (ddrbAfterSettle s).regs.ddrb.outEna = false := by
  rcases hd with h | h
  · unfold ddrbAfterSettle; split <;> simp [h]
  · simp [ddrbAfterSettle, h]

lemma readOutEna_settled (env : PinEnv) (s : Sys)
    (ho : env.outEnaPin = true)
    (hd : s.regs.ddrb.outEna = false ∨ s.mStatus = 7) :
    readOutEna env (ddrbAfterSettle s) = true := by
  unfold readOutEna
  rw [settled_ddrb_false s hd]
  simpa using ho

lemma wakeStep_proj (env : PinEnv) (s : Sys) :
    (wakeStep env s).voltage = s.voltage ∧
    (wakeStep env s).mStatus = (getStatus env s).1 ∧
    (wakeStep env s).watchdogCount = (getStatus env s).2.watchdogCount ∧
    (wakeStep env s).regs.adsc = (getStatus env s).2.regs.adsc := by
  have hf := getStatus_frame env s
  have hsf := setMode_frame { (getStatus env s).2 with mStatus := (getStatus env s).1 }
  simp only [wakeStep]
  split
  · exact ⟨hf.1, rfl, rfl, rfl⟩
  · exact ⟨hsf.1.trans hf.1, hsf.2.2.1, hsf.2.1, hsf.2.2.2.2.2.2.2.2.2.2⟩

lemma wakeStep_ddrb_eq_or (env : PinEnv) (s : Sys) :
    (wakeStep env s).regs.ddrb.outEna = (getStatus env s).2.regs.ddrb.outEna ∨
    (wakeStep env s).regs.ddrb.outEna =
      (setMode { (getStatus env s).2 with
        mStatus := (getStatus env s).1 }).regs.ddrb.outEna := by
  simp only [wakeStep]
  split
  · exact Or.inl rfl
  · exact Or.inr rfl

lemma setMode_ddrb_outEna_456 (t : Sys)
    (hm : t.mStatus = 4 ∨ t.mStatus = 5 ∨ t.mStatus = 6) :
    (setMode t).regs.ddrb.outEna = false := by
  rcases hm with h | h | h <;> simp [setMode, h]

lemma setMode_ddrb_outEna_7 (t : Sys) (hm : t.mStatus = 7) :
    (setMode t).regs.ddrb.outEna = true := by
  simp [setMode, hm]

lemma getStatus_mode4_proj (env : PinEnv) (s : Sys)
    (ho : readOutEna env (ddrbAfterSettle s) = true) (hu : env.usb = false)
    (hv : BATTERY_GOOD < s.voltage) :
    (getStatus env s).1 = 4 ∧
    (getStatus env s).2.regs.ddrb.outEna = (ddrbAfterSettle s).regs.ddrb.outEna ∧
    (getStatus env s).2.watchdogCount =
      ((if s.watchdogCount % 4 = 0 then 0 else s.watchdogCount) + 1) % 256 ∧
    ((getStatus env s).2.regs.adsc = true ↔
      (s.regs.adsc = true ∨ s.watchdogCount % 4 = 0)) := by
  have hfr := ddrbAfterSettle_frame s
  by_cases hw : s.watchdogCount % 4 = 0 <;>
    simp [getStatus, ho, hu, hv, hw, hfr.1, hfr.2.1, hfr.2.2.1,
      START_ADC_1S_WATCHDOG]

lemma wakeIter_mode4 (env : PinEnv) (s : Sys)
    (ho : env.outEnaPin = true) (hu : env.usb = false)
    (hd : s.regs.ddrb.outEna = false ∨ s.mStatus = 7)
    (hv : BATTERY_GOOD < s.voltage) :
    (wakeIter env s).voltage = s.voltage ∧
    (wakeIter env s).mStatus = 4 ∧
    (wakeIter env s).regs.ddrb.outEna = false ∧
    (wakeIter env s).watchdogCount % 4 = (s.watchdogCount + 1) % 4 ∧
    ((wakeIter env s).regs.adsc = true ↔ s.watchdogCount % 4 = 0) := by
  have hd1 : ({ s with regs.adsc := false } : Sys).regs.ddrb.outEna = false ∨
      ({ s with regs.adsc := false } : Sys).mStatus = 7 := hd
  have ho1 : readOutEna env (ddrbAfterSettle { s with regs.adsc := false }) = true :=
    readOutEna_settled env _ ho hd1
  obtain ⟨hm, hdd, hwc, hads⟩ :=
    getStatus_mode4_proj env { s with regs.adsc := false } ho1 hu hv
  have hproj := wakeStep_proj env { s with regs.adsc := false }
  rw [show wakeIter env s = wakeStep env { s with regs.adsc := false } from rfl]
  refine ⟨hproj.1, hproj.2.1.trans hm, ?_, ?_, ?_⟩
  · rcases wakeStep_ddrb_eq_or env { s with regs.adsc := false } with h | h
    · rw [h, hdd]
      exact settled_ddrb_false _ hd1
    · rw [h]
      exact setMode_ddrb_outEna_456 _ (by simp [hm])
  · rw [hproj.2.2.1, hwc]
    simp only []
    split_ifs <;> omega
  · rw [hproj.2.2.2, hads]
    simp

lemma getStatus_mode5_proj (env : PinEnv) (s : Sys)
    (ho : readOutEna env (ddrbAfterSettle s) = true) (hu : env.usb = false)
    (hv1 : BATTERY_LOW < s.voltage) (hv2 : s.voltage ≤ BATTERY_GOOD) :
    (getStatus env s).1 = 5 ∧
    (getStatus env s).2.regs.ddrb.outEna = (ddrbAfterSettle s).regs.ddrb.outEna ∧
    (getStatus env s).2.watchdogCount =
      (if ((s.watchdogCount + 1) % 256) % 4 = 0 then 0
       else (s.watchdogCount + 1) % 256) ∧
    ((getStatus env s).2.regs.adsc = true ↔
      (s.regs.adsc = true ∨ ((s.watchdogCount + 1) % 256) % 4 = 0)) := by
  have hfr := ddrbAfterSettle_frame s
  have hgn : ¬ BATTERY_GOOD < s.voltage := not_lt.mpr hv2
  by_cases hw : ((s.watchdogCount + 1) % 256) % 4 = 0 <;>
    simp [getStatus, ho, hu, hv1, hgn, hw, hfr.1, hfr.2.1, hfr.2.2.1,
      START_ADC_1S_WATCHDOG]

lemma getStatus_mode6_proj (env : PinEnv) (s : Sys)
    (ho : readOutEna env (ddrbAfterSettle s) = true) (hu : env.usb = false)
    (hv1 : BATTERY_CRITICAL < s.voltage) (hv2 : s.voltage ≤ BATTERY_LOW) :
    (getStatus env s).1 = 6 ∧
    (getStatus env s).2.regs.ddrb.outEna = (ddrbAfterSettle s).regs.ddrb.outEna ∧
    (getStatus env s).2.watchdogCount =
      (if ((s.watchdogCount + 1) % 256) % 8 = 0 then 0
       else (s.watchdogCount + 1) % 256) ∧
    ((getStatus env s).2.regs.adsc = true ↔
      (s.regs.adsc = true ∨ ((s.watchdogCount + 1) % 256) % 8 = 0)) := by
  have hfr := ddrbAfterSettle_frame s
  have hgn : ¬ BATTERY_GOOD < s.voltage := by
    simp only [BATTERY_GOOD, BATTERY_LOW] at *; omega
  have hln : ¬ BATTERY_LOW < s.voltage := not_lt.mpr hv2
  by_cases hw : ((s.watchdogCount + 1) % 256) % 8 = 0 <;>
    simp [getStatus, ho, hu, hv1, hgn, hln, hw, hfr.1, hfr.2.1, hfr.2.2.1,
      START_ADC_0_5S_WATCHDOG]

lemma getStatus_mode7_proj (env : PinEnv) (s : Sys)
    (ho : readOutEna env (ddrbAfterSettle s) = true) (hu : env.usb = false)
    (hv : s.voltage ≤ BATTERY_CRITICAL) :
    (getStatus env s).1 = 7 ∧
    (getStatus env s).2.regs.ddrb.outEna = true ∧
    (getStatus env s).2.watchdogCount =
      (if ((s.watchdogCount + 1) % 256) % 4 = 0 then 0
       else (s.watchdogCount + 1) % 256) ∧
    ((getStatus env s).2.regs.adsc = true ↔
      (s.regs.adsc = true ∨ ((s.watchdogCount + 1) % 256) % 4 = 0)) := by
  have hfr := ddrbAfterSettle_frame s
  have hgn : ¬ BATTERY_GOOD < s.voltage := by
    simp only [BATTERY_GOOD, BATTERY_CRITICAL] at *; omega
  have hln : ¬ BATTERY_LOW < s.voltage := by
    simp only [BATTERY_LOW, BATTERY_CRITICAL] at *; omega
  have hcn : ¬ BATTERY_CRITICAL < s.voltage := not_lt.mpr hv
  by_cases hw : ((s.watchdogCount + 1) % 256) % 4 = 0 <;>
    simp [getStatus, ho, hu, hgn, hln, hcn, hw, hfr.1, hfr.2.1, hfr.2.2.1,
      START_ADC_1S_WATCHDOG]

lemma wakeIter_mode5 (env : PinEnv) (s : Sys)
    (ho : env.outEnaPin = true) (hu : env.usb = false)
    (hd : s.regs.ddrb.outEna = false ∨ s.mStatus = 7)
    (hv1 : BATTERY_LOW < s.voltage) (hv2 : s.voltage ≤ BATTERY_GOOD) :
    (wakeIter env s).voltage = s.voltage ∧
    (wakeIter env s).mStatus = 5 ∧
    (wakeIter env s).regs.ddrb.outEna = false ∧
    (wakeIter env s).watchdogCount % 4 = (s.watchdogCount + 1) % 4 ∧
    ((wakeIter env s).regs.adsc = true ↔ (s.watchdogCount + 1) % 4 = 0) := by
  have hd1 : ({ s with regs.adsc := false } : Sys).regs.ddrb.outEna = false ∨
      ({ s with regs.adsc := false } : Sys).mStatus = 7 := hd
  have ho1 : readOutEna env (ddrbAfterSettle { s with regs.adsc := false }) = true :=
    readOutEna_settled env _ ho hd1
  obtain ⟨hm, hdd, hwc, hads⟩ :=
    getStatus_mode5_proj env { s with regs.adsc := false } ho1 hu hv1 hv2
  have hproj := wakeStep_proj env { s with regs.adsc := false }
  rw [show wakeIter env s = wakeStep env { s with regs.adsc := false } from rfl]
  refine ⟨hproj.1, hproj.2.1.trans hm, ?_, ?_, ?_⟩
  · rcases wakeStep_ddrb_eq_or env { s with regs.adsc := false } with h | h
    · rw [h, hdd]
      exact settled_ddrb_false _ hd1
    · rw [h]
      exact setMode_ddrb_outEna_456 _ (by simp [hm])
  · rw [hproj.2.2.1, hwc]
    simp only []
    split_ifs <;> omega
  · rw [hproj.2.2.2, hads]
    have hra : ({ s with regs.adsc := false } : Sys).regs.adsc = false := rfl
    rw [hra]
    simp only [Bool.false_eq_true, false_or]
    omega

lemma wakeIter_mode6 (env : PinEnv) (s : Sys)
    (ho : env.outEnaPin = true) (hu : env.usb = false)
    (hd : s.regs.ddrb.outEna = false ∨ s.mStatus = 7)
    (hv1 : BATTERY_CRITICAL < s.voltage) (hv2 : s.voltage ≤ BATTERY_LOW) :
    (wakeIter env s).voltage = s.voltage ∧
    (wakeIter env s).mStatus = 6 ∧
    (wakeIter env s).regs.ddrb.outEna = false ∧
    (wakeIter env s).watchdogCount % 8 = (s.watchdogCount + 1) % 8 ∧
    ((wakeIter env s).regs.adsc = true ↔ (s.watchdogCount + 1) % 8 = 0) := by
  have hd1 : ({ s with regs.adsc := false } : Sys).regs.ddrb.outEna = false ∨
      ({ s with regs.adsc := false } : Sys).mStatus = 7 := hd
  have ho1 : readOutEna env (ddrbAfterSettle { s with regs.adsc := false }) = true :=
    readOutEna_settled env _ ho hd1
  obtain ⟨hm, hdd, hwc, hads⟩ :=
    getStatus_mode6_proj env { s with regs.adsc := false } ho1 hu hv1 hv2
  have hproj := wakeStep_proj env { s with regs.adsc := false }
  rw [show wakeIter env s = wakeStep env { s with regs.adsc := false } from rfl]
  refine ⟨hproj.1, hproj.2.1.trans hm, ?_, ?_, ?_⟩
  · rcases wakeStep_ddrb_eq_or env { s with regs.adsc := false } with h | h
    · rw [h, hdd]
      exact settled_ddrb_false _ hd1
    · rw [h]
      exact setMode_ddrb_outEna_456 _ (by simp [hm])
  · rw [hproj.2.2.1, hwc]
    simp only []
    split_ifs <;> omega
  · rw [hproj.2.2.2, hads]
    have hra : ({ s with regs.adsc := false } : Sys).regs.adsc = false := rfl
    rw [hra]
    simp only [Bool.false_eq_true, false_or]
    omega

lemma wakeIter_mode7 (env : PinEnv) (s : Sys)
    (ho : env.outEnaPin = true) (hu : env.usb = false)
    (hd : s.regs.ddrb.outEna = false ∨ s.mStatus = 7)
    (hv : s.voltage ≤ BATTERY_CRITICAL) :
    (wakeIter env s).voltage = s.voltage ∧
    (wakeIter env s).mStatus = 7 ∧
    (wakeIter env s).watchdogCount % 4 = (s.watchdogCount + 1) % 4 ∧
    ((wakeIter env s).regs.adsc = true ↔ (s.watchdogCount + 1) % 4 = 0) := by
  have hd1 : ({ s with regs.adsc := false } : Sys).regs.ddrb.outEna = false ∨
      ({ s with regs.adsc := false } : Sys).mStatus = 7 := hd
  have ho1 : readOutEna env (ddrbAfterSettle { s with regs.adsc := false }) = true :=
    readOutEna_settled env _ ho hd1
  obtain ⟨hm, hdd, hwc, hads⟩ :=
    getStatus_mode7_proj env { s with regs.adsc := false } ho1 hu hv
  have hproj := wakeStep_proj env { s with regs.adsc := false }
  rw [show wakeIter env s = wakeStep env { s with regs.adsc := false } from rfl]
  refine ⟨hproj.1, hproj.2.1.trans hm, ?_, ?_⟩
  · rw [hproj.2.2.1, hwc]
    simp only []
    split_ifs <;> omega
  · rw [hproj.2.2.2, hads]
    have hra : ({ s with regs.adsc := false } : Sys).regs.adsc = false := rfl
    rw [hra]
    simp only [Bool.false_eq_true, false_or]
    omega

lemma exists_unique_hit4 (c : Nat) (P : Nat → Prop)
    (hP : ∀ n, P n ↔ (c + n) % 4 = 0) (k : Nat) :
    ∃! i, i < 4 ∧ P (k + i) := by
  refine ⟨(4 - (c + k) % 4) % 4, ⟨by omega, ?_⟩, ?_⟩
  · rw [hP]; omega
  · rintro j ⟨hj, hPj⟩
    rw [hP] at hPj
    omega

lemma exists_unique_hit8 (c : Nat) (P : Nat → Prop)
    (hP : ∀ n, P n ↔ (c + n) % 8 = 0) (k : Nat) :
    ∃! i, i < 8 ∧ P (k + i) := by
  refine ⟨(8 - (c + k) % 8) % 8, ⟨by omega, ?_⟩, ?_⟩
  · rw [hP]; omega
  · rintro j ⟨hj, hPj⟩
    rw [hP] at hPj
    omega

lemma runState_mode4 (env : PinEnv) (s : Sys)
    (ho : env.outEnaPin = true) (hu : env.usb = false)
    (hd : s.regs.ddrb.outEna = false) (hv : BATTERY_GOOD < s.voltage) :
    ∀ n, (runState env s n).voltage = s.voltage ∧
      ((runState env s n).regs.ddrb.outEna = false ∨
        (runState env s n).mStatus = 7) ∧
      (runState env s n).watchdogCount % 4 = (s.watchdogCount + n) % 4 := by
  intro n
  induction n with
  | zero =>
    refine ⟨rfl, Or.inl hd, ?_⟩
    show s.watchdogCount % _ = _
    omega
  | succ n ih =>
    obtain ⟨hv', hd', hw'⟩ := ih
    have hs := wakeIter_mode4 env (runState env s n) ho hu hd'
      (by rw [hv']; exact hv)
    refine ⟨hs.1.trans hv', Or.inl hs.2.2.1, ?_⟩
    show (wakeIter env (runState env s n)).watchdogCount % 4 = _
    have hw2 := hs.2.2.2.1
    omega

lemma runState_mode5 (env : PinEnv) (s : Sys)
    (ho : env.outEnaPin = true) (hu : env.usb = false)
    (hd : s.regs.ddrb.outEna = false)
    (hv1 : BATTERY_LOW < s.voltage) (hv2 : s.voltage ≤ BATTERY_GOOD) :
    ∀ n, (runState env s n).voltage = s.voltage ∧
      ((runState env s n).regs.ddrb.outEna = false ∨
        (runState env s n).mStatus = 7) ∧
      (runState env s n).watchdogCount % 4 = (s.watchdogCount + n) % 4 := by
  intro n
  induction n with
  | zero =>
    refine ⟨rfl, Or.inl hd, ?_⟩
    show s.watchdogCount % _ = _
    omega
  | succ n ih =>
    obtain ⟨hv', hd', hw'⟩ := ih
    have hs := wakeIter_mode5 env (runState env s n) ho hu hd'
      (by rw [hv']; exact hv1) (by rw [hv']; exact hv2)
    refine ⟨hs.1.trans hv', Or.inl hs.2.2.1, ?_⟩
    show (wakeIter env (runState env s n)).watchdogCount % 4 = _
    have hw2 := hs.2.2.2.1
    omega

lemma runState_mode6 (env : PinEnv) (s : Sys)
    (ho : env.outEnaPin = true) (hu : env.usb = false)
    (hd : s.regs.ddrb.outEna = false)
    (hv1 : BATTERY_CRITICAL < s.voltage) (hv2 : s.voltage ≤ BATTERY_LOW) :
    ∀ n, (runState env s n).voltage = s.voltage ∧
      ((runState env s n).regs.ddrb.outEna = false ∨
        (runState env s n).mStatus = 7) ∧
      (runState env s n).watchdogCount % 8 = (s.watchdogCount + n) % 8 := by
  intro n
  induction n with
  | zero =>
    refine ⟨rfl, Or.inl hd, ?_⟩
    show s.watchdogCount % _ = _
    omega
  | succ n ih =>
    obtain ⟨hv', hd', hw'⟩ := ih
    have hs := wakeIter_mode6 env (runState env s n) ho hu hd'
      (by rw [hv']; exact hv1) (by rw [hv']; exact hv2)
    refine ⟨hs.1.trans hv', Or.inl hs.2.2.1, ?_⟩
    show (wakeIter env (runState env s n)).watchdogCount % 8 = _
    have hw2 := hs.2.2.2.1
    omega

lemma runState_mode7 (env : PinEnv) (s : Sys)
    (ho : env.outEnaPin = true) (hu : env.usb = false)
    (hd : s.regs.ddrb.outEna = false) (hv : s.voltage ≤ BATTERY_CRITICAL) :
    ∀ n, (runState env s n).voltage = s.voltage ∧
      ((runState env s n).regs.ddrb.outEna = false ∨
        (runState env s n).mStatus = 7) ∧
      (runState env s n).watchdogCount % 4 = (s.watchdogCount + n) % 4 := by
  intro n
  induction n with
  | zero =>
    refine ⟨rfl, Or.inl hd, ?_⟩
    show s.watchdogCount % _ = _
    omega
  | succ n ih =>
    obtain ⟨hv', hd', hw'⟩ := ih
    have hs := wakeIter_mode7 env (runState env s n) ho hu hd'
      (by rw [hv']; exact hv)
    refine ⟨hs.1.trans hv', Or.inr hs.2.1, ?_⟩
    show (wakeIter env (runState env s n)).watchdogCount % 4 = _
    have hw2 := hs.2.2.1
    omega

/-- C5: along a run of evaluation cycles with fixed inputs (output
observed on, USB absent) and the voltage in a fixed band, an acquisition
is requested exactly once every 4th cycle in modes 4, 5 and 7 and
exactly once every 8th cycle in mode 6: the request pattern is the
arithmetic progression of the cadence-counter residue (the counter is
compared modulo the cadence constant and reset on request), and every
window of 4 (respectively 8) consecutive cycles contains exactly one
request. -/
theorem sampling_cadence :
    (∀ env s, env.outEnaPin = true → env.usb = false →
      s.regs.ddrb.outEna = false → BATTERY_GOOD < s.voltage →
      (∀ n, (requestedAt env s n = true ↔ (s.watchdogCount + n) % 4 = 0)) ∧
      (∀ k, ∃! i, i < 4 ∧ requestedAt env s (k + i) = true)) ∧
    (∀ env s, env.outEnaPin = true → env.usb = false →
      s.regs.ddrb.outEna = false →
      BATTERY_LOW < s.voltage → s.voltage ≤ BATTERY_GOOD →
      (∀ n, (requestedAt env s n = true ↔ (s.watchdogCount + n + 1) % 4 = 0)) ∧
      (∀ k, ∃! i, i < 4 ∧ requestedAt env s (k + i) = true)) ∧
    (∀ env s, env.outEnaPin = true → env.usb = false →
      s.regs.ddrb.outEna = false →
      BATTERY_CRITICAL < s.voltage → s.voltage ≤ BATTERY_LOW →
      (∀ n, (requestedAt env s n = true ↔ (s.watchdogCount + n + 1) % 8 = 0)) ∧
      (∀ k, ∃! i, i < 8 ∧ requestedAt env s (k + i) = true)) ∧
    (∀ env s, env.outEnaPin = true → env.usb = false →
      s.regs.ddrb.outEna = false → s.voltage ≤ BATTERY_CRITICAL →
      (∀ n, (requestedAt env s n = true ↔ (s.watchdogCount + n + 1) % 4 = 0)) ∧
      (∀ k, ∃! i, i < 4 ∧ requestedAt env s (k + i) = true)) := by
  refine ⟨fun env s ho hu hd hv => ?_, fun env s ho hu hd hv1 hv2 => ?_,
    fun env s ho hu hd hv1 hv2 => ?_, fun env s ho hu hd hv => ?_⟩
  · have hpat : ∀ n, (requestedAt env s n = true ↔ (s.watchdogCount + n) % 4 = 0) := by
      intro n
      obtain ⟨hv', hd', hw'⟩ := runState_mode4 env s ho hu hd hv n
      have hs := wakeIter_mode4 env (runState env s n) ho hu hd'
        (by rw [hv']; exact hv)
      show (wakeIter env (runState env s n)).regs.adsc = true ↔ _
      rw [hs.2.2.2.2]
      omega
    exact ⟨hpat, exists_unique_hit4 s.watchdogCount _ hpat⟩
  · have hpat : ∀ n, (requestedAt env s n = true ↔ (s.watchdogCount + n + 1) % 4 = 0) := by
      intro n
      obtain ⟨hv', hd', hw'⟩ := runState_mode5 env s ho hu hd hv1 hv2 n
      have hs := wakeIter_mode5 env (runState env s n) ho hu hd'
        (by rw [hv']; exact hv1) (by rw [hv']; exact hv2)
      show (wakeIter env (runState env s n)).regs.adsc = true ↔ _
      rw [hs.2.2.2.2]
      omega
    refine ⟨hpat, exists_unique_hit4 (s.watchdogCount + 1)
      (fun n => requestedAt env s n = true) ?_⟩
    intro n
    show requestedAt env s n = true ↔ _
    rw [hpat n]
    omega
  · have hpat : ∀ n, (requestedAt env s n = true ↔ (s.watchdogCount + n + 1) % 8 = 0) := by
      intro n
      obtain ⟨hv', hd', hw'⟩ := runState_mode6 env s ho hu hd hv1 hv2 n
      have hs := wakeIter_mode6 env (runState env s n) ho hu hd'
        (by rw [hv']; exact hv1) (by rw [hv']; exact hv2)
      show (wakeIter env (runState env s n)).regs.adsc = true ↔ _
      rw [hs.2.2.2.2]
      omega
    refine ⟨hpat, exists_unique_hit8 (s.watchdogCount + 1)
      (fun n => requestedAt env s n = true) ?_⟩
    intro n
    show requestedAt env s n = true ↔ _
    rw [hpat n]
    omega
  · have hpat : ∀ n, (requestedAt env s n = true ↔ (s.watchdogCount + n + 1) % 4 = 0) := by
      intro n
      obtain ⟨hv', hd', hw'⟩ := runState_mode7 env s ho hu hd hv n
      have hs := wakeIter_mode7 env (runState env s n) ho hu hd'
        (by rw [hv']; exact hv)
      show (wakeIter env (runState env s n)).regs.adsc = true ↔ _
      rw [hs.2.2.2]
      omega
    refine ⟨hpat, exists_unique_hit4 (s.watchdogCount + 1)
      (fun n => requestedAt env s n = true) ?_⟩
    intro n
    show requestedAt env s n = true ↔ _
    rw [hpat n]
    omega

/-- C5 witness: from the initial state (counter 0, voltage 4000, mode-4
band) the very first cycle requests an acquisition, and from a
3350 mV state (mode-5 band) the 4th cycle is the unique request of the
first window. -/
theorem sampling_cadence_witness :
    (requestedAt envOn sysInit 0 = true ↔ (sysInit.watchdogCount + 0) % 4 = 0) ∧
    (∃! i, i < 4 ∧ requestedAt envOn sysInit (0 + i) = true) ∧
    (requestedAt envOn sysLow 0 = true ↔ (sysLow.watchdogCount + 0 + 1) % 4 = 0) ∧
    (∃! i, i < 4 ∧ requestedAt envOn sysLow (0 + i) = true) :=
  ⟨(sampling_cadence.1 envOn sysInit rfl rfl rfl (by decide)).1 0,
   (sampling_cadence.1 envOn sysInit rfl rfl rfl (by decide)).2 0,
   (sampling_cadence.2.2.2 envOn sysLow rfl rfl rfl (by decide)).1 0,
   (sampling_cadence.2.2.2 envOn sysLow rfl rfl rfl (by decide)).2 0⟩

end PowerSupply